import Mathlib

/-!
Verification development for the seismos structural-health core.

Shallow embedding conventions:
* JS numbers carrying scores, coordinates and frequencies are modelled as `ℚ`
  (every value the program produces for these quantities is rational);
  timestamps are `ℤ`; building ids are `ℕ` (the population uses ids
  `node-1 … node-80`, modelled as `1 … 80`).
* `Math.random()` draws are passed in as explicit parameters `r : ℚ` subject to
  `0 ≤ r < 1`; `Math.floor(Math.random() * k)` becomes `rand i % k` for a
  supplied `rand : ℕ → ℕ`.
* JS `Map` objects are modelled as `ℕ → Option α`, together with the
  insertion-ordered key list where iteration order with a running index
  matters (`SeismosState.pop`); JS `Set` objects become `List ℕ`.
* `Math.sqrt` appears only (a) inside the comparison `sqrt(dx²+dy²) < R`,
  embedded as the equivalent `dx²+dy² < R²`, and (b) in the epicentral
  distance fed to `distanceFactor`, abstracted as a nonnegative parameter `d`
  standing for the source's `distance` value; and (c) in the acceleration
  `magnitude` field, which no claim mentions and which is omitted, as is the
  `fftSpectrum` field (built with `Math.exp`).
* `Math.round` (round half toward +∞) is `jsRound q = ⌊q + 1/2⌋`.
-/

namespace Seismos

/-- JS `Math.round`: rounds half toward +∞, `Math.round q = ⌊q + 1/2⌋`. -/
def jsRound (q : ℚ) : ℤ := ⌊q + 1/2⌋

/-! ## Baseline / fatigue tracker (src/src/lib/damage-score/baseline-tracker.ts) -/

/-- `CONFIG.fatigueThresholdSlope = -0.005`. -/
def fatigueThresholdSlope : ℚ := -(1/200)

/-- `CONFIG.minTrendConfidence = 0.3`. -/
def minTrendConfidence : ℚ := 3/10

/-- `CONFIG.minSamplesForFatigue = 30`. -/
def minSamplesForFatigue : ℕ := 30

/-- `FatigueIndicator` record returned by the tracker. -/
structure FatigueIndicator where
  hasWarning : Bool
  trendSlope : ℚ
  baselineFrequency : ℚ
  currentFrequency : ℚ
  deviationPercent : ℚ
  sampleCount : ℕ
  trendConfidence : ℚ
  deriving DecidableEq

/-- `BaselineTracker.linearRegression`: ordinary least squares of the sample
values against their indices `0, 1, 2, …`; returns `(slope, R²)` with the
source's guards: fewer than 2 points or a zero denominator give `(0, 0)`,
`R²` is `1 - ssRes/ssTot` when `ssTot > 0` (else `0`) and clamped `≥ 0`.
`sumY2` is accumulated but unused, exactly as in the source. -/
def linearRegression (values : List ℚ) : ℚ × ℚ :=
  let n := values.length
  if n < 2 then (0, 0) else
  let pts := values.enum
  let sumX : ℚ := pts.foldl (fun a p => a + (p.1 : ℚ)) 0
  let sumY : ℚ := pts.foldl (fun a p => a + p.2) 0
  let sumXY : ℚ := pts.foldl (fun a p => a + (p.1 : ℚ) * p.2) 0
  let sumX2 : ℚ := pts.foldl (fun a p => a + (p.1 : ℚ) * (p.1 : ℚ)) 0
  let _sumY2 : ℚ := pts.foldl (fun a p => a + p.2 * p.2) 0
  let meanX := sumX / (n : ℚ)
  let meanY := sumY / (n : ℚ)
  let numer := sumXY - (n : ℚ) * meanX * meanY
  let denom := sumX2 - (n : ℚ) * meanX * meanX
  if denom = 0 then (0, 0) else
  let slope := numer / denom
  let intercept := meanY - slope * meanX
  let ssRes := pts.foldl (fun a p => a + (p.2 - (slope * (p.1 : ℚ) + intercept))^2) 0
  let ssTot := pts.foldl (fun a p => a + (p.2 - meanY)^2) 0
  let rSquared := if 0 < ssTot then 1 - ssRes / ssTot else 0
  (slope, max 0 rSquared)

/-- `BaselineTracker.calculateFatigueIndicator` for a node whose rolling
history is `history`, established baseline `baselineFrequency` (`none` while
unset) and latest sample `currentFrequency`. -/
def calculateFatigueIndicator (history : List ℚ) (baselineFrequency : Option ℚ)
    (currentFrequency : ℚ) : FatigueIndicator :=
  let sampleCount := history.length
  let baselineFreq := baselineFrequency.getD currentFrequency
  let deviationPercent :=
    if 0 < baselineFreq then ((baselineFreq - currentFrequency) / baselineFreq) * 100 else 0
  if sampleCount < minSamplesForFatigue then
    ⟨false, 0, baselineFreq, currentFrequency, deviationPercent, sampleCount, 0⟩
  else
    let reg := linearRegression history
    ⟨decide (reg.1 < fatigueThresholdSlope) && decide (minTrendConfidence < reg.2),
     reg.1, baselineFreq, currentFrequency, deviationPercent, sampleCount, reg.2⟩

/-- Per-node tracker record (`NodeBaseline`). -/
structure NodeBaseline where
  frequencyHistory : List ℚ
  baselineFrequency : Option ℚ
  isBaselineSet : Bool
  deriving DecidableEq

/-- `BaselineTracker.getBaseline`: the established baseline or the 5 Hz
default (`baseline?.baselineFrequency ?? 5.0`). -/
def getBaseline (tracked : ℕ → Option NodeBaseline) (nodeId : ℕ) : ℚ :=
  match tracked nodeId with
  | some b => b.baselineFrequency.getD 5
  | none => 5

/-! ## Reading synthesizer and earthquake engine (src/unnamed/part_000) -/

/-- Building structure types (`StructureType`). -/
inductive StructureType
  | betonarme
  | yigma
  | celik
  | ahsap
  deriving DecidableEq

/-- `BuildingMetadata`; the display-only string fields `lastInspection` and
`sensorId` are not carried, no claim mentions them. -/
structure BuildingMetadata where
  floors : ℕ
  yearBuilt : ℕ
  structureType : StructureType
  deriving DecidableEq

/-- Signal classification tags (`SignalType`). -/
inductive SignalType
  | idle
  | seismic
  | noise
  | anomaly
  deriving DecidableEq

/-- `SensorReading` as produced by the synthesizer; `magnitude` (a square
root) and `fftSpectrum` (built with `Math.exp`) are omitted — no claim refers
to them. -/
structure SensorReadingM where
  timestamp : ℤ
  accelX : ℚ
  accelY : ℚ
  accelZ : ℚ
  frequency : ℚ
  signalType : SignalType
  deriving DecidableEq

/-- `generateIdleReading` (part_000 lines 139-166): the damage looked up in
`currentDamages` (`get(nodeId) || 0`) drives the frequency hysteresis
`healthFactor = max(0, 1 - damage/100)`, `baseFrequency = 1.0 + 3.5 *
healthFactor`; the reported dominant frequency adds a jitter
`Math.random() * 0.2`. The three acceleration axes are
`(Math.random() - 0.5) * 0.003`. Randomness enters as `r1 r2 r3 rf ∈ [0,1)`. -/
def generateIdleReading (currentDamages : ℕ → Option ℚ) (nodeId : ℕ) (now : ℤ)
    (r1 r2 r3 rf : ℚ) : SensorReadingM :=
  let damage := (currentDamages nodeId).getD 0
  let healthFactor := max 0 (1 - damage / 100)
  let baseFrequency := 1 + (7/2) * healthFactor
  { timestamp := now
    accelX := (r1 - 1/2) * (3/1000)
    accelY := (r2 - 1/2) * (3/1000)
    accelZ := (r3 - 1/2) * (3/1000)
    frequency := baseFrequency + rf * (1/5)
    signalType := .idle }

/-- Mutable state of the `EarthquakeSimulator` singleton. Interval handles
are modelled as `Option ℕ` (`none` = cleared, `some k` = the `k`-th interval
ever started), `deadNodes` as an id list. -/
structure EqSimState where
  liveReadings : ℕ → Option SensorReadingM
  earthquakeInterval : Option ℕ
  idleInterval : Option ℕ
  deadNodes : List ℕ
  currentDamages : ℕ → Option ℚ

/-- `EarthquakeSimulator.getReading` (part_000 lines 317-320): `null` for a
dead (silenced) node, otherwise the live reading if present and a freshly
generated idle reading if not (a reading object is always truthy, so `||`
is exactly `getD`). The randomness for the fallback reading enters as
`r1 r2 r3 rf`. -/
def getReading (sim : EqSimState) (nodeId : ℕ) (now : ℤ)
    (r1 r2 r3 rf : ℚ) : Option SensorReadingM :=
  if nodeId ∈ sim.deadNodes then none
  else some ((sim.liveReadings nodeId).getD
    (generateIdleReading sim.currentDamages nodeId now r1 r2 r3 rf))

/-- The trigger-time `distanceFactor = Math.max(0.2, 1 - distance * 50)`
(part_000 line 220), with the epicentral Euclidean distance `d ≥ 0` taken
as a parameter (its square root is irrational). -/
def triggerDistanceFactor (d : ℚ) : ℚ := max (1/5) (1 - d * 50)

/-- The trigger-time vulnerability factor (part_000 lines 223-228), as the
source's sequence of conditional assignments: `1.0`, overwritten by `1.4`
for `yigma` and by `1.6` for `ahsap`, then multiplied by `1.3` for pre-1980
construction and by `1.2` for more than 4 floors. -/
def vulnerabilityFactor (meta : BuildingMetadata) : ℚ :=
  let vf0 : ℚ := 1
  let vf1 := if meta.structureType = .yigma then 14/10 else vf0
  let vf2 := if meta.structureType = .ahsap then 16/10 else vf1
  let vf3 := if meta.yearBuilt < 1980 then vf2 * (13/10) else vf2
  if 4 < meta.floors then vf3 * (12/10) else vf3

/-- The per-building damage delta computed once at trigger time (part_000
lines 230-234): `Math.min(100, Math.round(intensity * 25 * distanceFactor *
vulnerabilityFactor * (0.5 + Math.random() * 0.5)))`, with the epicentral
distance `d` and the jitter draw `r ∈ [0,1)` as parameters. -/
def triggerDamage (intensity d : ℚ) (meta : BuildingMetadata) (r : ℚ) : ℤ :=
  min 100 (jsRound (intensity * 25 * triggerDistanceFactor d
    * vulnerabilityFactor meta * (1/2 + r * (1/2))))

/-- The spec's damage formula, written from the spec's words for comparison
(refinement target of C5): `round(intensity * scale * distanceFactor *
vulnerability * randomJitter)`, clamped to `[0, 100]`. -/
def specDamageFormula (intensity scale distanceFactor vulnerability randomJitter : ℚ) : ℤ :=
  max 0 (min 100 (jsRound (intensity * scale * distanceFactor * vulnerability * randomJitter)))

/-- The synchronous effect of `EarthquakeSimulator.triggerEarthquake`
(part_000 lines 205-238): for every population member the damage delta is
computed once from the trigger-time formula, and `this.earthquakeInterval`
is unconditionally overwritten with the handle of a freshly started tick
loop — there is no guard against an interval already running. The per-node
epicentral distance and jitter draw enter as functions `distF`, `jitter`;
the asynchronous tick-loop body is not part of this synchronous step. -/
def triggerEarthquakeStart (population : List (ℕ × BuildingMetadata))
    (intensity : ℚ) (distF : ℕ → ℚ) (jitter : ℕ → ℚ) (newIntervalId : ℕ)
    (sim : EqSimState) : EqSimState × (ℕ → Option ℤ) :=
  let damageResults : ℕ → Option ℤ := fun id =>
    (List.lookup id population).map fun meta => triggerDamage intensity (distF id) meta (jitter id)
  ({ sim with earthquakeInterval := some newIntervalId }, damageResults)

/-- The fixed simulated population's ids: `node-1 … node-80` (part_000
`DEMO_NODES = generateBalatNodes(80)`), modelled as `1 … 80`. -/
def populationIds : List ℕ := (List.range 80).map (· + 1)

/-! ## Damage ledger and INSD consensus store (src/unnamed/part_001) -/

/-- `NodeStatus` from `supabase/types`, as consumed by the store. -/
inductive NodeStatus
  | stable
  | anomaly
  | warning
  | critical
  | collapse
  | collapse_inferred
  deriving DecidableEq

/-- `getStatusFromScore` (part_001 lines 48-54). -/
def getStatusFromScore (score : ℚ) : NodeStatus :=
  if 90 ≤ score then .collapse
  else if 70 ≤ score then .critical
  else if 30 ≤ score then .warning
  else if 15 ≤ score then .anomaly
  else .stable

/-- The per-node fields of the store's `nodes` map that the core reads:
position and current status. -/
structure NodeData where
  lat : ℚ
  lng : ℚ
  status : NodeStatus
  deriving DecidableEq

/-- `BuildingDamage` (part_001 lines 11-15). -/
structure BuildingDamage where
  baseScore : ℚ
  earthquakeDamage : ℚ
  totalScore : ℚ
  deriving DecidableEq

/-- The store state (`SeismosState`). UI-only fields (`selectedNodeId`,
`earthquakeProgress`, `activeNodeCount`, `buildingSummary` — a derived
aggregate) are omitted; `pop` is the insertion-ordered key list of the
`nodes` map, carrying the iteration order that JS `Map.forEach` supplies. -/
structure SeismosState where
  pop : List ℕ
  nodes : ℕ → Option NodeData
  buildingDamages : ℕ → Option BuildingDamage
  isEarthquakeActive : Bool
  lastHeartbeat : ℕ → Option ℤ
  consensusEvidence : ℕ → Option (List ℕ)

/-- The store's creation-time state: empty maps, no earthquake. -/
def initialState : SeismosState :=
  { pop := []
    nodes := fun _ => none
    buildingDamages := fun _ => none
    isEarthquakeActive := false
    lastHeartbeat := fun _ => none
    consensusEvidence := fun _ => none }

/-- An input node handed to `setNodes` (its `status` is immediately
overwritten from the fresh base score, since every node gets a damage
record). -/
structure InputNode where
  id : ℕ
  lat : ℚ
  lng : ℚ
  status : NodeStatus
  deriving DecidableEq

/-- The randomized base score assigned at position `index`
(part_001 lines 72-81 and 262-269): the first two buildings get
`30 + Math.floor(Math.random()*15)` (30-44), the rest
`Math.floor(Math.random()*26)` (0-25); the floored draw is `rand index % k`. -/
def baseScoreFor (rand : ℕ → ℕ) (index : ℕ) : ℚ :=
  if index = 0 ∨ index = 1 then 30 + ((rand index % 15 : ℕ) : ℚ)
  else ((rand index % 26 : ℕ) : ℚ)

/-- `setNodes` (part_001 lines 67-115): builds fresh `nodes` and
`buildingDamages` maps from the input list (each node's status recomputed
from its fresh base score), and re-seeds every heartbeat with `now`.
`consensusEvidence` and `isEarthquakeActive` are left untouched (the action
returns only the fields it rebuilds). Input ids are distinct in the program
(`node-1 … node-80`); the first matching list entry models `Map` lookup. -/
def setNodes (ns : List InputNode) (rand : ℕ → ℕ) (now : ℤ) (s : SeismosState) :
    SeismosState :=
  let ids := ns.map (·.id)
  let entry : ℕ → Option (ℕ × InputNode) := fun id => (ns.enum).find? (fun p => p.2.id == id)
  { s with
    pop := ids.dedup
    nodes := fun id => (entry id).map fun p =>
      ⟨p.2.lat, p.2.lng, getStatusFromScore (baseScoreFor rand p.1)⟩
    buildingDamages := fun id => (entry id).map fun p =>
      ⟨baseScoreFor rand p.1, 0, baseScoreFor rand p.1⟩
    lastHeartbeat := fun id => if id ∈ ids then some now else none }

/-- `setEarthquakeActive` (part_001 lines 119-122); the progress field it
also writes is UI-only and not modelled. -/
def setEarthquakeActive (active : Bool) (s : SeismosState) : SeismosState :=
  { s with isEarthquakeActive := active }

/-- `updateHeartbeat` (part_001 lines 126-136): stamps `now` on the listed
ids, leaving the rest. -/
def updateHeartbeat (nodeIds : List ℕ) (now : ℤ) (s : SeismosState) : SeismosState :=
  { s with lastHeartbeat := fun id => if id ∈ nodeIds then some now else s.lastHeartbeat id }

/-- `SILENCE_THRESHOLD = 1000` ms. -/
def silenceThreshold : ℤ := 1000

/-- `NEIGHBOR_RADIUS = 0.0015`. -/
def neighborRadius : ℚ := 3/2000

/-- A node is active when its heartbeat age is strictly below the silence
threshold (`now - time < SILENCE_THRESHOLD`); ids with no heartbeat entry
are not active. -/
def isActiveAt (s : SeismosState) (now : ℤ) (id : ℕ) : Bool :=
  match s.lastHeartbeat id with
  | some t => decide (now - t < silenceThreshold)
  | none => false

/-- The witness-radius test: `Math.sqrt((Δlat)² + (Δlng)²) < NEIGHBOR_RADIUS`,
embedded as the equivalent comparison of squares. -/
def withinRadius (a b : NodeData) : Bool :=
  decide ((a.lat - b.lat) * (a.lat - b.lat) + (a.lng - b.lng) * (a.lng - b.lng)
    < neighborRadius * neighborRadius)

/-- The witness list collected for a silent node (part_001 lines 166-179):
every *other* node of the map that is itself active and within the neighbor
radius. -/
def witnesses (s : SeismosState) (now : ℤ) (id : ℕ) (node : NodeData) : List ℕ :=
  s.pop.filter fun nid =>
    (!(nid == id)) && isActiveAt s now nid &&
      (match s.nodes nid with
       | some nb => withinRadius node nb
       | none => false)

/-- The per-node decision of `checkConsensus` (part_001 lines 154-197):
returns the node's new value and the evidence update (`none` = unchanged,
`some (some ws)` = record witnesses, `some none` = delete the entry).
A silent node not already `collapse`/`collapse_inferred` is inferred
collapsed only when an earthquake is active and at least 3 witnesses are
found; a no-longer-silent `collapse_inferred` node with a damage record has
its status recomputed from its `totalScore` and its evidence deleted. -/
def consensusNodeUpdate (s : SeismosState) (now : ℤ) (id : ℕ) (node : NodeData) :
    NodeData × Option (Option (List ℕ)) :=
  let lastSeen := (s.lastHeartbeat id).getD 0
  if silenceThreshold < now - lastSeen ∧
      node.status ≠ .collapse ∧ node.status ≠ .collapse_inferred then
    if s.isEarthquakeActive then
      let ws := witnesses s now id node
      if 3 ≤ ws.length then (⟨node.lat, node.lng, .collapse_inferred⟩, some (some ws))
      else (node, none)
    else (node, none)
  else if ¬ (silenceThreshold < now - lastSeen) ∧ node.status = .collapse_inferred then
    match s.buildingDamages id with
    | some d => ({ node with status := getStatusFromScore d.totalScore }, some none)
    | none => (node, none)
  else (node, none)

/-- `checkConsensus` (part_001 lines 138-203). Each node's new value depends
only on the pre-call snapshot, so the `forEach` is a pointwise map; the
derived `buildingSummary` refresh is not modelled. -/
def checkConsensus (now : ℤ) (s : SeismosState) : SeismosState :=
  { s with
    nodes := fun id => (s.nodes id).map fun n => (consensusNodeUpdate s now id n).1
    consensusEvidence := fun id =>
      match s.nodes id with
      | some n =>
        match (consensusNodeUpdate s now id n).2 with
        | some e => e
        | none => s.consensusEvidence id
      | none => s.consensusEvidence id }

/-- `applyEarthquakeDamage` (part_001 lines 206-240): each delta is merged
into the matching damage record (`earthquakeDamage += delta`, `totalScore =
min(100, baseScore + earthquakeDamage + delta)`) and the node's status is
recomputed from the new total unless it is currently `collapse_inferred`;
ids without a damage record are skipped. The `updateDamages` notification it
sends to the simulator singleton copies the new total-score map and is
modelled at the simulator (`EqSimState.currentDamages`), not here. -/
def applyEarthquakeDamage (dmg : ℕ → Option ℚ) (s : SeismosState) : SeismosState :=
  { s with
    buildingDamages := fun id =>
      match dmg id, s.buildingDamages id with
      | some add, some cur =>
        some ⟨cur.baseScore, cur.earthquakeDamage + add,
              min 100 (cur.baseScore + cur.earthquakeDamage + add)⟩
      | _, _ => s.buildingDamages id
    nodes := fun id =>
      match dmg id, s.buildingDamages id, s.nodes id with
      | some add, some cur, some node =>
        if node.status = .collapse_inferred then some node
        else some { node with
          status := getStatusFromScore (min 100 (cur.baseScore + cur.earthquakeDamage + add)) }
      | _, _, _ => s.nodes id }

/-- `resetToSafe` (part_001 lines 255-310): every node of the map gets a
fresh random base score (positional index = position in the key list), zero
event damage, status recomputed from the new base; the earthquake flag,
heartbeats (re-stamped `now` for all keys) and evidence are cleared. The
`updateDamages`/`reset` notifications to the simulator singleton are
modelled at the simulator. -/
def resetToSafe (rand : ℕ → ℕ) (now : ℤ) (s : SeismosState) : SeismosState :=
  let bFor : ℕ → ℚ := fun id => baseScoreFor rand (s.pop.indexOf id)
  { s with
    nodes := fun id => (s.nodes id).map fun n =>
      ⟨n.lat, n.lng, getStatusFromScore (bFor id)⟩
    buildingDamages := fun id =>
      if (s.nodes id).isSome then some ⟨bFor id, 0, bFor id⟩ else none
    isEarthquakeActive := false
    lastHeartbeat := fun id => if (s.nodes id).isSome then some now else none
    consensusEvidence := fun _ => none }

/-- One observable store transition. `applyEarthquakeDamage` steps carry the
fact that every delta the program ever feeds it is nonnegative: the deltas
are the engine's trigger-time results, which are rounded products of
nonnegative factors clamped from above by 100. -/
inductive Step : SeismosState → SeismosState → Prop
  | setNodes (ns : List InputNode) (rand : ℕ → ℕ) (now : ℤ) {s : SeismosState} :
      Step s (setNodes ns rand now s)
  | setEarthquakeActive (active : Bool) {s : SeismosState} :
      Step s (setEarthquakeActive active s)
  | updateHeartbeat (nodeIds : List ℕ) (now : ℤ) {s : SeismosState} :
      Step s (updateHeartbeat nodeIds now s)
  | checkConsensus (now : ℤ) {s : SeismosState} :
      Step s (checkConsensus now s)
  | applyEarthquakeDamage (dmg : ℕ → Option ℚ)
      (hpos : ∀ id v, dmg id = some v → 0 ≤ v) {s : SeismosState} :
      Step s (applyEarthquakeDamage dmg s)
  | resetToSafe (rand : ℕ → ℕ) (now : ℤ) {s : SeismosState} :
      Step s (resetToSafe rand now s)

/-- States reachable from the store's creation-time state. -/
inductive Reachable : SeismosState → Prop
  | init : Reachable initialState
  | step {s s' : SeismosState} : Reachable s → Step s s' → Reachable s'

/-- C1's invariant over the damage records. -/
def DamageInv (s : SeismosState) : Prop :=
  ∀ id d, s.buildingDamages id = some d →
    0 ≤ d.baseScore ∧ 0 ≤ d.earthquakeDamage ∧
    d.totalScore = min 100 (d.baseScore + d.earthquakeDamage)

/-- C2's invariant: every displayed status is either the INSD override or
the pure function of the node's current total score. -/
def StatusInv (s : SeismosState) : Prop :=
  ∀ id n, s.nodes id = some n →
    n.status = NodeStatus.collapse_inferred ∨
    ∃ d, s.buildingDamages id = some d ∧ n.status = getStatusFromScore d.totalScore

/-- `DashboardPanel.handleTriggerEarthquake` (the only caller of the
engine's trigger): bails out with no state change while an earthquake is
active, otherwise flips the store's flag and starts the engine. The
asynchronous progress/complete callbacks are not part of this synchronous
step. -/
def handleTriggerEarthquake (population : List (ℕ × BuildingMetadata))
    (intensity : ℚ) (distF : ℕ → ℚ) (jitter : ℕ → ℚ) (newIntervalId : ℕ)
    (st : SeismosState) (sim : EqSimState) : SeismosState × EqSimState :=
  if st.isEarthquakeActive then (st, sim)
  else
    (setEarthquakeActive true st,
     (triggerEarthquakeStart population intensity distF jitter newIntervalId sim).1)

/-! ## Concrete fixtures used by witnesses and counterexamples -/

/-- A 3-floor reinforced-concrete 1990 building (all vulnerability factors 1). -/
def demoMeta : BuildingMetadata := ⟨3, 1990, .betonarme⟩

/-- A simulator state in which an earthquake tick loop is already running. -/
def simBusy : EqSimState :=
  { liveReadings := fun _ => none
    earthquakeInterval := some 0
    idleInterval := none
    deadNodes := []
    currentDamages := fun _ => none }

/-- A freshly constructed simulator: no loops, no readings, no dead nodes. -/
def simFresh : EqSimState := { simBusy with earthquakeInterval := none }

/-- A store state during an active earthquake: four co-located nodes, node 1
silent for 2 seconds, nodes 2-4 with fresh heartbeats. -/
def consensusDemoState : SeismosState :=
  { pop := [1, 2, 3, 4]
    nodes := fun id => if 1 ≤ id ∧ id ≤ 4 then some ⟨0, 0, .stable⟩ else none
    buildingDamages := fun id => if 1 ≤ id ∧ id ≤ 4 then some ⟨0, 0, 0⟩ else none
    isEarthquakeActive := true
    lastHeartbeat := fun id =>
      if id = 1 then some (-2000) else if 2 ≤ id ∧ id ≤ 4 then some 0 else none
    consensusEvidence := fun _ => none }

/-- A store state in which node 1 is `collapse_inferred` but its heartbeat
has just resumed. -/
def resumeDemoState : SeismosState :=
  { pop := [1]
    nodes := fun id => if id = 1 then some ⟨0, 0, .collapse_inferred⟩ else none
    buildingDamages := fun id => if id = 1 then some ⟨20, 0, 20⟩ else none
    isEarthquakeActive := false
    lastHeartbeat := fun id => if id = 1 then some 0 else none
    consensusEvidence := fun id => if id = 1 then some [2, 3, 4] else none }

/-- Input population for a tiny concrete run of the ledger. -/
def inputWit : List InputNode := [⟨1, 0, 0, .stable⟩]

/-- The store after `setNodes` on `inputWit` with all random draws 0. -/
def storeWitA : SeismosState := setNodes inputWit (fun _ => 0) 0 initialState

/-- A delta map adding 70 damage to node 1 (an engine-producible delta). -/
def dmgWit : ℕ → Option ℚ := fun id => if id = 1 then some 70 else none

/-- The store after also applying `dmgWit`. -/
def storeWitB : SeismosState := applyEarthquakeDamage dmgWit storeWitA

/-- Node 1's damage record in `storeWitA`. -/
def dWitA : BuildingDamage := ⟨30, 0, 30⟩

/-- Node 1's damage record in `storeWitB`. -/
def dWitB : BuildingDamage := ⟨30, 70, 100⟩

/-- Node 1's node record in `storeWitB`. -/
def nWitB : NodeData := ⟨0, 0, .collapse⟩

/-- A store state with the earthquake flag raised (for the trigger guard). -/
def storeActive : SeismosState := { initialState with isEarthquakeActive := true }

/-! ## Theorems -/

/-- C7: the fatigue warning fires iff there are at least the minimum 30
samples, the regression slope is more negative than -0.005, and R² exceeds
the minimum confidence 0.3; in particular it never fires with fewer than 30
samples, and never fires with R² at or below 0.3 however negative the slope. -/
theorem fatigue_hasWarning_iff (history : List ℚ) (b : Option ℚ) (c : ℚ) :
    (calculateFatigueIndicator history b c).hasWarning = true ↔
      (30 ≤ history.length ∧
       (linearRegression history).1 < -(1/200) ∧
       3/10 < (linearRegression history).2) := by
  have hth : fatigueThresholdSlope = -(1/200) := rfl
  have hconf : minTrendConfidence = 3/10 := rfl
  simp only [calculateFatigueIndicator]
  by_cases h : history.length < minSamplesForFatigue
  · rw [if_pos h]
    have hlt : ¬ (30 ≤ history.length) := by
      simp only [minSamplesForFatigue] at h
      omega
    simp [hlt]
  · rw [if_neg h]
    have hge : 30 ≤ history.length := by
      simp only [minSamplesForFatigue] at h
      omega
    simp [hge, hth, hconf, Bool.and_eq_true, decide_eq_true_iff, and_assoc]

/-- C8: the idle reading's dominant frequency is the hysteresis base
frequency `1.0 + 3.5 * max(0, 1 - damage/100)` plus the `[0, 0.2)` jitter;
zero accumulated damage yields base 4.5 Hz, full damage yields 1.0 Hz. -/
theorem idle_frequency_hysteresis (currentDamages : ℕ → Option ℚ) (nodeId : ℕ)
    (now : ℤ) (r1 r2 r3 rf : ℚ) :
    (generateIdleReading currentDamages nodeId now r1 r2 r3 rf).frequency
      = 1 + (7/2) * max 0 (1 - ((currentDamages nodeId).getD 0) / 100) + rf * (1/5) ∧
    (generateIdleReading (fun _ => some 0) nodeId now r1 r2 r3 rf).frequency
      = 9/2 + rf * (1/5) ∧
    (generateIdleReading (fun _ => some 100) nodeId now r1 r2 r3 rf).frequency
      = 1 + rf * (1/5) := by
  refine ⟨rfl, ?_, ?_⟩
  · norm_num [generateIdleReading]
  · norm_num [generateIdleReading]

/-- The vulnerability factor is at least 1 (every branch multiplies factors ≥ 1). -/
theorem one_le_vulnerabilityFactor (meta : BuildingMetadata) :
    1 ≤ vulnerabilityFactor meta := by
  simp only [vulnerabilityFactor]
  split_ifs <;> norm_num

/-- The trigger-time distance factor is at least 0.2. -/
theorem triggerDistanceFactor_ge (d : ℚ) : 1/5 ≤ triggerDistanceFactor d :=
  le_max_left _ _

/-- `Math.round` of a nonnegative number is nonnegative. -/
theorem jsRound_nonneg {q : ℚ} (h : 0 ≤ q) : 0 ≤ jsRound q := by
  unfold jsRound
  have : ((0 : ℤ) : ℚ) ≤ q + 1/2 := by push_cast; linarith
  exact Int.le_floor.mpr this

/-- C5: the trigger-time per-building damage delta is exactly the spec's
`round(intensity * scale * distanceFactor * vulnerability * randomJitter)`
clamped to `[0, 100]` (with scale 25 and jitter `0.5 + r*0.5`), and it lies
in `[0, 100]`. -/
theorem triggerDamage_formula_and_clamp (intensity d : ℚ) (meta : BuildingMetadata)
    (r : ℚ) (hi : 0 ≤ intensity) (hr0 : 0 ≤ r) :
    triggerDamage intensity d meta r
      = specDamageFormula intensity 25 (triggerDistanceFactor d)
          (vulnerabilityFactor meta) (1/2 + r * (1/2)) ∧
    0 ≤ triggerDamage intensity d meta r ∧ triggerDamage intensity d meta r ≤ 100 := by
  have hdF : (0 : ℚ) ≤ triggerDistanceFactor d :=
    le_trans (by norm_num) (triggerDistanceFactor_ge d)
  have hvuln : (0 : ℚ) ≤ vulnerabilityFactor meta :=
    le_trans (by norm_num) (one_le_vulnerabilityFactor meta)
  have hjit : (0 : ℚ) ≤ 1/2 + r * (1/2) := by linarith
  have hprod : (0 : ℚ) ≤ intensity * 25 * triggerDistanceFactor d
      * vulnerabilityFactor meta * (1/2 + r * (1/2)) := by
    have h1 : (0 : ℚ) ≤ intensity * 25 := by linarith
    exact mul_nonneg (mul_nonneg (mul_nonneg h1 hdF) hvuln) hjit
  have hround := jsRound_nonneg hprod
  have hmin : (0 : ℤ) ≤ min 100 (jsRound (intensity * 25 * triggerDistanceFactor d
      * vulnerabilityFactor meta * (1/2 + r * (1/2)))) :=
    le_min (by norm_num) hround
  refine ⟨?_, hmin, min_le_left _ _⟩
  unfold triggerDamage specDamageFormula
  exact (max_eq_right hmin).symm

/-- C5 witness: a concrete building at the epicenter with intensity 2. -/
theorem triggerDamage_formula_and_clamp_witness :
    triggerDamage 2 0 demoMeta 0
      = specDamageFormula 2 25 (triggerDistanceFactor 0)
          (vulnerabilityFactor demoMeta) (1/2 + 0 * (1/2)) ∧
    0 ≤ triggerDamage 2 0 demoMeta 0 ∧ triggerDamage 2 0 demoMeta 0 ≤ 100 :=
  triggerDamage_formula_and_clamp 2 0 demoMeta 0 (by norm_num) (by norm_num)

/-- C9 counterexample: calling the simulator's `triggerEarthquake` while the
earthquake interval handle is already set (an event is in progress) is not a
no-op — a fresh damage map is computed (node 1 receives delta 25) and the
tick-loop handle is replaced. -/
theorem triggerEarthquake_active_not_noop :
    simBusy.earthquakeInterval = some 0 ∧
    (triggerEarthquakeStart [(1, demoMeta)] 2 (fun _ => 0) (fun _ => 0) 1
        simBusy).1.earthquakeInterval = some 1 ∧
    (triggerEarthquakeStart [(1, demoMeta)] 2 (fun _ => 0) (fun _ => 0) 1
        simBusy).2 1 = some 25 := by
  refine ⟨rfl, rfl, ?_⟩
  show some (triggerDamage 2 0 demoMeta 0) = some 25
  have hv : vulnerabilityFactor demoMeta = 1 := by decide
  norm_num [triggerDamage, triggerDistanceFactor, jsRound, hv, max_def]

/-- C9 amended: the no-op guard lives in the UI caller
`handleTriggerEarthquake`, which returns with no state change while
`isEarthquakeActive` is set. -/
theorem handleTriggerEarthquake_active_noop (population : List (ℕ × BuildingMetadata))
    (intensity : ℚ) (distF jitter : ℕ → ℚ) (newIntervalId : ℕ)
    (st : SeismosState) (sim : EqSimState) (h : st.isEarthquakeActive = true) :
    handleTriggerEarthquake population intensity distF jitter newIntervalId st sim
      = (st, sim) := by
  simp [handleTriggerEarthquake, h]

/-- C9 amended witness: the guard at a concrete active store. -/
theorem handleTriggerEarthquake_active_noop_witness :
    handleTriggerEarthquake [(1, demoMeta)] 2 (fun _ => 0) (fun _ => 0) 1
        storeActive simBusy = (storeActive, simBusy) :=
  handleTriggerEarthquake_active_noop [(1, demoMeta)] 2 (fun _ => 0) (fun _ => 0) 1
    storeActive simBusy rfl

/-- C10 counterexample: id 999 is outside the fixed population, yet
`getReading` does not return the absent result — it synthesizes a fresh idle
reading — and `getBaseline` returns the 5 Hz default rather than an absent
result. -/
theorem getReading_unknown_id_not_absent :
    (999 ∉ populationIds) ∧
    getReading simFresh 999 0 0 0 0 0 ≠ none ∧
    getBaseline (fun _ => none) 999 = 5 := by
  refine ⟨by decide, ?_, rfl⟩
  simp [getReading, simFresh, simBusy]

/-- C10 amended: queries with an id the core is not tracking never throw
(both queries are total); `getReading` returns absent only for silenced
(dead) ids and otherwise falls back to a freshly generated idle reading,
and `getBaseline` returns the 5 Hz default. -/
theorem unknown_id_queries_default (sim : EqSimState) (tracked : ℕ → Option NodeBaseline)
    (id : ℕ) (now : ℤ) (r1 r2 r3 rf : ℚ)
    (hdead : id ∉ sim.deadNodes) (hlive : sim.liveReadings id = none)
    (htr : tracked id = none) :
    getReading sim id now r1 r2 r3 rf
      = some (generateIdleReading sim.currentDamages id now r1 r2 r3 rf) ∧
    getBaseline tracked id = 5 := by
  constructor
  · simp [getReading, hdead, hlive]
  · simp [getBaseline, htr]

/-- C10 amended witness: the unknown id 999 against a fresh simulator and
tracker. -/
theorem unknown_id_queries_default_witness :
    getReading simFresh 999 0 0 0 0 0
      = some (generateIdleReading simFresh.currentDamages 999 0 0 0 0 0) ∧
    getBaseline (fun _ => none) 999 = 5 :=
  unknown_id_queries_default simFresh (fun _ => none) 999 0 0 0 0 0
    (by decide) rfl rfl

/-- The randomized base scores are nonnegative. -/
theorem baseScoreFor_nonneg (rand : ℕ → ℕ) (index : ℕ) : 0 ≤ baseScoreFor rand index := by
  unfold baseScoreFor
  split_ifs <;> positivity

/-- The randomized base scores are at most 44 (`30 + 14` or `25`). -/
theorem baseScoreFor_le (rand : ℕ → ℕ) (index : ℕ) : baseScoreFor rand index ≤ 44 := by
  unfold baseScoreFor
  split_ifs
  · have h : rand index % 15 < 15 := Nat.mod_lt _ (by norm_num)
    have h2 : ((rand index % 15 : ℕ) : ℚ) ≤ 14 := by
      exact_mod_cast Nat.le_of_lt_succ h
    linarith
  · have h : rand index % 26 < 26 := Nat.mod_lt _ (by norm_num)
    have h2 : ((rand index % 26 : ℕ) : ℚ) ≤ 25 := by
      exact_mod_cast Nat.le_of_lt_succ h
    linarith

/-- Case analysis of `applyEarthquakeDamage` at a single id: either the id is
skipped (no delta, or no damage record) and both maps are untouched there, or
the delta is merged and the node (when present) gets the status update
guarded by the INSD override. -/
theorem applyDamage_pointwise (dmg : ℕ → Option ℚ) (s : SeismosState) (id : ℕ) :
    ((applyEarthquakeDamage dmg s).buildingDamages id = s.buildingDamages id ∧
     (applyEarthquakeDamage dmg s).nodes id = s.nodes id) ∨
    (∃ add cur,
      dmg id = some add ∧ s.buildingDamages id = some cur ∧
      (applyEarthquakeDamage dmg s).buildingDamages id
        = some ⟨cur.baseScore, cur.earthquakeDamage + add,
            min 100 (cur.baseScore + cur.earthquakeDamage + add)⟩ ∧
      ((s.nodes id = none ∧ (applyEarthquakeDamage dmg s).nodes id = none) ∨
       (∃ node, s.nodes id = some node ∧
         (applyEarthquakeDamage dmg s).nodes id
           = (if node.status = NodeStatus.collapse_inferred then some node
              else some ⟨node.lat, node.lng, getStatusFromScore
                  (min 100 (cur.baseScore + cur.earthquakeDamage + add))⟩)))) := by
  rcases hdm : dmg id with _ | add
  · exact Or.inl ⟨by simp [applyEarthquakeDamage, hdm],
                  by simp [applyEarthquakeDamage, hdm]⟩
  · rcases hdc : s.buildingDamages id with _ | cur
    · exact Or.inl ⟨by simp [applyEarthquakeDamage, hdm, hdc],
                    by simp [applyEarthquakeDamage, hdm, hdc]⟩
    · refine Or.inr ⟨add, cur, rfl, rfl,
        by simp [applyEarthquakeDamage, hdm, hdc], ?_⟩
      rcases hnd : s.nodes id with _ | node
      · exact Or.inl ⟨rfl, by simp [applyEarthquakeDamage, hdm, hdc, hnd]⟩
      · exact Or.inr ⟨node, rfl, by simp [applyEarthquakeDamage, hdm, hdc, hnd]⟩

/-- `DamageInv` holds in the empty initial store. -/
theorem damageInv_initial : DamageInv initialState := by
  intro id d hd
  simp [initialState] at hd

/-- `setNodes` establishes `DamageInv` outright (fresh records `⟨b, 0, b⟩`
with `b ≤ 44`). -/
theorem damageInv_setNodes (ns : List InputNode) (rand : ℕ → ℕ) (now : ℤ)
    (s : SeismosState) : DamageInv (setNodes ns rand now s) := by
  intro id d hd
  simp only [setNodes, Option.map_eq_some'] at hd
  obtain ⟨p, _, rfl⟩ := hd
  have hb1 := baseScoreFor_le rand p.1
  refine ⟨baseScoreFor_nonneg rand p.1, le_refl 0, ?_⟩
  show baseScoreFor rand p.1 = min 100 (baseScoreFor rand p.1 + 0)
  rw [add_zero]
  exact (min_eq_right (by linarith)).symm

/-- Merging a nonnegative delta map preserves `DamageInv`. -/
theorem damageInv_apply (dmg : ℕ → Option ℚ) (s : SeismosState)
    (hpos : ∀ id v, dmg id = some v → 0 ≤ v) (hinv : DamageInv s) :
    DamageInv (applyEarthquakeDamage dmg s) := by
  intro id d hd
  rcases applyDamage_pointwise dmg s id with ⟨h1, _⟩ | ⟨add, cur, hdm, hdc, h1, _⟩
  · rw [h1] at hd
    exact hinv id d hd
  · rw [h1] at hd
    obtain rfl := Option.some.inj hd
    obtain ⟨hb, he, _⟩ := hinv id cur hdc
    refine ⟨hb, add_nonneg he (hpos id add hdm), ?_⟩
    show min 100 (cur.baseScore + cur.earthquakeDamage + add)
      = min 100 (cur.baseScore + (cur.earthquakeDamage + add))
    rw [add_assoc]

/-- `checkConsensus` leaves the damage records untouched. -/
theorem damageInv_checkConsensus (now : ℤ) (s : SeismosState)
    (hinv : DamageInv s) : DamageInv (checkConsensus now s) :=
  fun id d hd => hinv id d hd

/-- `resetToSafe` re-establishes `DamageInv` outright. -/
theorem damageInv_reset (rand : ℕ → ℕ) (now : ℤ) (s : SeismosState) :
    DamageInv (resetToSafe rand now s) := by
  intro id d hd
  simp only [resetToSafe] at hd
  by_cases h : (s.nodes id).isSome
  · rw [if_pos h, Option.some.injEq] at hd
    subst hd
    have hb1 := baseScoreFor_le rand (s.pop.indexOf id)
    refine ⟨baseScoreFor_nonneg rand (s.pop.indexOf id), le_refl 0, ?_⟩
    show baseScoreFor rand (s.pop.indexOf id)
      = min 100 (baseScoreFor rand (s.pop.indexOf id) + 0)
    rw [add_zero]
    exact (min_eq_right (by linarith)).symm
  · rw [if_neg h] at hd
    cases hd

/-- `DamageInv` holds in every reachable store state. -/
theorem damageInv_reachable {s : SeismosState} (h : Reachable s) : DamageInv s := by
  induction h with
  | init => exact damageInv_initial
  | step _ hst ih =>
    cases hst with
    | setNodes ns rand now => exact damageInv_setNodes ns rand now _
    | setEarthquakeActive active => exact fun id d hd => ih id d hd
    | updateHeartbeat nodeIds now => exact fun id d hd => ih id d hd
    | checkConsensus now => exact damageInv_checkConsensus now _ ih
    | applyEarthquakeDamage dmg hpos => exact damageInv_apply dmg _ hpos ih
    | resetToSafe rand now => exact damageInv_reset rand now _

/-- `StatusInv` holds in the empty initial store. -/
theorem statusInv_initial : StatusInv initialState := by
  intro id n hn
  simp [initialState] at hn

/-- `setNodes` establishes `StatusInv` outright: every node's status is
recomputed from its fresh damage record. -/
theorem statusInv_setNodes (ns : List InputNode) (rand : ℕ → ℕ) (now : ℤ)
    (s : SeismosState) : StatusInv (setNodes ns rand now s) := by
  intro id n hn
  simp only [setNodes, Option.map_eq_some'] at hn
  obtain ⟨p, hpe, rfl⟩ := hn
  right
  refine ⟨⟨baseScoreFor rand p.1, 0, baseScoreFor rand p.1⟩, ?_, rfl⟩
  simp only [setNodes, Option.map_eq_some']
  exact ⟨p, hpe, rfl⟩

/-- `applyEarthquakeDamage` preserves `StatusInv`: updated nodes get the
status of their new total unless overridden by `collapse_inferred`. -/
theorem statusInv_apply (dmg : ℕ → Option ℚ) (s : SeismosState)
    (hinv : StatusInv s) : StatusInv (applyEarthquakeDamage dmg s) := by
  intro id n hn
  rcases applyDamage_pointwise dmg s id with ⟨hd1, hn1⟩ | ⟨add, cur, hdm, hdc, hd1, hrest⟩
  · rw [hn1] at hn
    rcases hinv id n hn with h | ⟨d, hd, h⟩
    · exact Or.inl h
    · exact Or.inr ⟨d, by rw [hd1]; exact hd, h⟩
  · rcases hrest with ⟨hnone, hn2⟩ | ⟨node, hnode, hn2⟩
    · rw [hn2] at hn
      cases hn
    · rw [hn2] at hn
      by_cases hst : node.status = NodeStatus.collapse_inferred
      · rw [if_pos hst] at hn
        obtain rfl := Option.some.inj hn
        exact Or.inl hst
      · rw [if_neg hst] at hn
        obtain rfl := Option.some.inj hn
        exact Or.inr ⟨⟨cur.baseScore, cur.earthquakeDamage + add,
          min 100 (cur.baseScore + cur.earthquakeDamage + add)⟩, hd1, rfl⟩

/-- The three possible outcomes of the per-node consensus decision for the
node's new value: unchanged, inferred collapsed, or status restored from the
current damage record. -/
theorem consensusNodeUpdate_fst (s : SeismosState) (now : ℤ) (id : ℕ) (n : NodeData) :
    (consensusNodeUpdate s now id n).1 = n ∨
    (consensusNodeUpdate s now id n).1.status = NodeStatus.collapse_inferred ∨
    ∃ d, s.buildingDamages id = some d ∧
      (consensusNodeUpdate s now id n).1
        = { n with status := getStatusFromScore d.totalScore } := by
  rcases hdc : s.buildingDamages id with _ | d <;>
    simp only [consensusNodeUpdate, hdc] <;>
      split_ifs <;>
        first
          | exact Or.inl rfl
          | exact Or.inr (Or.inl rfl)
          | exact Or.inr (Or.inr ⟨d, rfl, rfl⟩)

/-- `checkConsensus` preserves `StatusInv`. -/
theorem statusInv_checkConsensus (now : ℤ) (s : SeismosState)
    (hinv : StatusInv s) : StatusInv (checkConsensus now s) := by
  intro id n' hn'
  have hbd : (checkConsensus now s).buildingDamages id = s.buildingDamages id := rfl
  simp only [checkConsensus, Option.map_eq_some'] at hn'
  obtain ⟨n, hn, hupd⟩ := hn'
  rcases consensusNodeUpdate_fst s now id n with h | h | ⟨d, hd, h⟩
  · rw [h] at hupd
    subst hupd
    rcases hinv id n hn with h1 | ⟨d, hd, h1⟩
    · exact Or.inl h1
    · exact Or.inr ⟨d, by rw [hbd]; exact hd, h1⟩
  · rw [hupd] at h
    exact Or.inl h
  · rw [h] at hupd
    subst hupd
    exact Or.inr ⟨d, by rw [hbd]; exact hd, rfl⟩

/-- `resetToSafe` re-establishes `StatusInv` outright. -/
theorem statusInv_reset (rand : ℕ → ℕ) (now : ℤ) (s : SeismosState) :
    StatusInv (resetToSafe rand now s) := by
  intro id n hn
  simp only [resetToSafe, Option.map_eq_some'] at hn
  obtain ⟨n0, hn0, rfl⟩ := hn
  right
  refine ⟨⟨baseScoreFor rand (s.pop.indexOf id), 0,
    baseScoreFor rand (s.pop.indexOf id)⟩, ?_, rfl⟩
  simp [resetToSafe, hn0]

/-- `StatusInv` holds in every reachable store state. -/
theorem statusInv_reachable {s : SeismosState} (h : Reachable s) : StatusInv s := by
  induction h with
  | init => exact statusInv_initial
  | step _ hst ih =>
    cases hst with
    | setNodes ns rand now => exact statusInv_setNodes ns rand now _
    | setEarthquakeActive active => exact fun id n hn => ih id n hn
    | updateHeartbeat nodeIds now => exact fun id n hn => ih id n hn
    | checkConsensus now => exact statusInv_checkConsensus now _ ih
    | applyEarthquakeDamage dmg hpos => exact statusInv_apply dmg _ ih
    | resetToSafe rand now => exact statusInv_reset rand now _

/-- A score of at least 90 maps to `collapse`. -/
theorem getStatusFromScore_of_ge90 {x : ℚ} (h : 90 ≤ x) :
    getStatusFromScore x = NodeStatus.collapse := by
  unfold getStatusFromScore
  rw [if_pos h]

/-- Node 1's damage record after the concrete `setNodes` run. -/
theorem storeWitA_damages : storeWitA.buildingDamages 1 = some dWitA := by
  norm_num [storeWitA, setNodes, inputWit, initialState, dWitA, baseScoreFor,
    List.enum, List.enumFrom, List.find?]

/-- Node 1's node record after the concrete `setNodes` run. -/
theorem storeWitA_nodes : storeWitA.nodes 1 = some ⟨0, 0, NodeStatus.warning⟩ := by
  norm_num [storeWitA, setNodes, inputWit, initialState, baseScoreFor,
    getStatusFromScore, List.enum, List.enumFrom, List.find?]

/-- Node 1's damage record after also applying the delta 70. -/
theorem storeWitB_damages : storeWitB.buildingDamages 1 = some dWitB := by
  have h := storeWitA_damages
  norm_num [storeWitB, applyEarthquakeDamage, dmgWit, h, dWitA, dWitB]

/-- Node 1's node record after also applying the delta 70. -/
theorem storeWitB_nodes : storeWitB.nodes 1 = some nWitB := by
  have h := storeWitA_damages
  have h2 := storeWitA_nodes
  have hne : NodeStatus.warning ≠ NodeStatus.collapse_inferred := by decide
  norm_num [storeWitB, applyEarthquakeDamage, dmgWit, h, h2, dWitA, nWitB,
    getStatusFromScore, hne]

/-- Every delta of `dmgWit` is nonnegative. -/
theorem dmgWit_nonneg : ∀ id v, dmgWit id = some v → 0 ≤ v := by
  intro id v hv
  by_cases h : id = 1
  · rw [show dmgWit id = some 70 by simp [dmgWit, h]] at hv
    obtain rfl := Option.some.inj hv
    norm_num
  · rw [show dmgWit id = none by simp [dmgWit, h]] at hv
    cases hv

/-- The concrete two-step run is reachable. -/
theorem storeWitB_reachable : Reachable storeWitB :=
  Reachable.step
    (Reachable.step Reachable.init (Step.setNodes inputWit (fun _ => 0) 0))
    (Step.applyEarthquakeDamage dmgWit dmgWit_nonneg)

/-- Two co-located nodes are within the neighbor radius. -/
theorem withinRadius_colocated :
    withinRadius ⟨0, 0, NodeStatus.stable⟩ ⟨0, 0, NodeStatus.stable⟩ = true := by
  rw [withinRadius, decide_eq_true_eq]
  norm_num [neighborRadius]

/-- The witness list of the silent node 1 in `consensusDemoState`. -/
theorem consensusDemo_witnesses :
    witnesses consensusDemoState 0 1 ⟨0, 0, .stable⟩ = [2, 3, 4] := by
  have hin := withinRadius_colocated
  simp [witnesses, consensusDemoState, isActiveAt, silenceThreshold, hin,
    List.filter]

/-- The consensus pass over `consensusDemoState` infers node 1 collapsed. -/
theorem consensusDemo_infers :
    (checkConsensus 0 consensusDemoState).nodes 1
      = some ⟨0, 0, NodeStatus.collapse_inferred⟩ := by
  have hn : consensusDemoState.nodes 1 = some ⟨0, 0, .stable⟩ := by
    norm_num [consensusDemoState]
  have hA : silenceThreshold < (0:ℤ) - ((consensusDemoState.lastHeartbeat 1).getD 0) ∧
      (⟨0, 0, .stable⟩ : NodeData).status ≠ NodeStatus.collapse ∧
      (⟨0, 0, .stable⟩ : NodeData).status ≠ NodeStatus.collapse_inferred := by
    refine ⟨?_, by decide, by decide⟩
    norm_num [consensusDemoState, silenceThreshold]
  have hAct : consensusDemoState.isEarthquakeActive = true := rfl
  have hW : 3 ≤ (witnesses consensusDemoState 0 1 ⟨0, 0, .stable⟩).length := by
    rw [consensusDemo_witnesses]
    norm_num
  rw [checkConsensus]
  simp only [hn, Option.map_some']
  simp only [consensusNodeUpdate]
  rw [if_pos hA, if_pos hAct, if_pos hW]

/-- C1: in every reachable store state, every damage record satisfies
`0 ≤ totalScore ≤ 100` and `totalScore = min(100, baseScore +
earthquakeDamage)`. -/
theorem totalScore_invariant_reachable {s : SeismosState} (h : Reachable s)
    (id : ℕ) (d : BuildingDamage) (hd : s.buildingDamages id = some d) :
    0 ≤ d.totalScore ∧ d.totalScore ≤ 100 ∧
    d.totalScore = min 100 (d.baseScore + d.earthquakeDamage) := by
  obtain ⟨hb, he, ht⟩ := damageInv_reachable h id d hd
  refine ⟨?_, ?_, ht⟩
  · rw [ht]
    exact le_min (by norm_num) (add_nonneg hb he)
  · rw [ht]
    exact min_le_left _ _

/-- C1 witness: node 1 of the concrete run `setNodes` then damage 70. -/
theorem totalScore_invariant_reachable_witness :
    0 ≤ dWitB.totalScore ∧ dWitB.totalScore ≤ 100 ∧
    dWitB.totalScore = min 100 (dWitB.baseScore + dWitB.earthquakeDamage) :=
  totalScore_invariant_reachable storeWitB_reachable 1 dWitB storeWitB_damages

/-- C2: in every reachable store state, every node's displayed status is the
threshold function of its total score unless overridden by
`collapse_inferred`; in particular a total of at least 90 displays `collapse`
unless currently `collapse_inferred`. -/
theorem status_matches_score_reachable {s : SeismosState} (h : Reachable s)
    (id : ℕ) (n : NodeData) (d : BuildingDamage)
    (hn : s.nodes id = some n) (hd : s.buildingDamages id = some d) :
    (n.status = NodeStatus.collapse_inferred ∨
     n.status = getStatusFromScore d.totalScore) ∧
    (90 ≤ d.totalScore →
     n.status = NodeStatus.collapse ∨ n.status = NodeStatus.collapse_inferred) := by
  have hs := statusInv_reachable h id n hn
  have hmain : n.status = NodeStatus.collapse_inferred ∨
      n.status = getStatusFromScore d.totalScore := by
    rcases hs with h1 | ⟨d', hd', h2⟩
    · exact Or.inl h1
    · rw [hd] at hd'
      obtain rfl := Option.some.inj hd'
      exact Or.inr h2
  refine ⟨hmain, fun h90 => ?_⟩
  rcases hmain with h1 | h2
  · exact Or.inr h1
  · rw [h2, getStatusFromScore_of_ge90 h90]
    exact Or.inl rfl

/-- C2 witness: node 1 of the concrete run reaches total 100 and displays
`collapse`. -/
theorem status_matches_score_reachable_witness :
    (nWitB.status = NodeStatus.collapse_inferred ∨
     nWitB.status = getStatusFromScore dWitB.totalScore) ∧
    (90 ≤ dWitB.totalScore →
     nWitB.status = NodeStatus.collapse ∨ nWitB.status = NodeStatus.collapse_inferred) :=
  status_matches_score_reachable storeWitB_reachable 1 nWitB dWitB
    storeWitB_nodes storeWitB_damages

/-- C3: whenever a consensus pass changes a node's status to
`collapse_inferred`, an earthquake is active and at least 3 distinct other
nodes — each itself active (heartbeat age strictly below the silence
threshold) and within the neighbor radius — witnessed it; the inference
never fires when either condition fails. -/
theorem insd_infer_requires_quorum (s : SeismosState) (now : ℤ) (id : ℕ)
    (n n' : NodeData) (hpop : s.pop.Nodup) (hn : s.nodes id = some n)
    (hold : n.status ≠ NodeStatus.collapse_inferred)
    (hn' : (checkConsensus now s).nodes id = some n')
    (hinf : n'.status = NodeStatus.collapse_inferred) :
    s.isEarthquakeActive = true ∧
    (witnesses s now id n).Nodup ∧
    3 ≤ (witnesses s now id n).length ∧
    (∀ w ∈ witnesses s now id n, w ≠ id ∧ isActiveAt s now w = true ∧
      ∃ nb, s.nodes w = some nb ∧ withinRadius n nb = true) := by
  have hupd : (consensusNodeUpdate s now id n).1 = n' := by
    rw [checkConsensus] at hn'
    simp only [hn, Option.map_some'] at hn'
    exact Option.some.inj hn'
  by_cases hA : silenceThreshold < now - (s.lastHeartbeat id).getD 0 ∧
      n.status ≠ NodeStatus.collapse ∧ n.status ≠ NodeStatus.collapse_inferred
  · by_cases hAct : s.isEarthquakeActive = true
    · by_cases hW : 3 ≤ (witnesses s now id n).length
      · refine ⟨hAct, hpop.filter _, hW, ?_⟩
        intro w hw
        obtain ⟨_, hcond⟩ := List.mem_filter.mp hw
        obtain ⟨h12, h3⟩ := Bool.and_eq_true_iff.mp hcond
        obtain ⟨h1, h2⟩ := Bool.and_eq_true_iff.mp h12
        refine ⟨by simpa using h1, h2, ?_⟩
        rcases hnb : s.nodes w with _ | nb
        · rw [hnb] at h3
          cases h3
        · rw [hnb] at h3
          exact ⟨nb, rfl, h3⟩
      · exfalso
        have heq : (consensusNodeUpdate s now id n).1 = n := by
          simp only [consensusNodeUpdate]
          rw [if_pos hA, if_pos hAct, if_neg hW]
        rw [heq] at hupd
        rw [← hupd] at hinf
        exact hold hinf
    · exfalso
      have heq : (consensusNodeUpdate s now id n).1 = n := by
        simp only [consensusNodeUpdate]
        rw [if_pos hA, if_neg hAct]
      rw [heq] at hupd
      rw [← hupd] at hinf
      exact hold hinf
  · exfalso
    by_cases hB : ¬ (silenceThreshold < now - (s.lastHeartbeat id).getD 0) ∧
        n.status = NodeStatus.collapse_inferred
    · exact hold hB.2
    · have heq : (consensusNodeUpdate s now id n).1 = n := by
        simp only [consensusNodeUpdate]
        rw [if_neg hA, if_neg hB]
      rw [heq] at hupd
      rw [← hupd] at hinf
      exact hold hinf

/-- C3 witness: during an active earthquake, node 1 (silent for 2 s) is
inferred collapsed with the three co-located active nodes 2, 3, 4 as
witnesses. -/
theorem insd_infer_requires_quorum_witness :
    consensusDemoState.isEarthquakeActive = true ∧
    (witnesses consensusDemoState 0 1 ⟨0, 0, .stable⟩).Nodup ∧
    3 ≤ (witnesses consensusDemoState 0 1 ⟨0, 0, .stable⟩).length ∧
    (∀ w ∈ witnesses consensusDemoState 0 1 ⟨0, 0, .stable⟩, w ≠ 1 ∧
      isActiveAt consensusDemoState 0 w = true ∧
      ∃ nb, consensusDemoState.nodes w = some nb ∧
        withinRadius ⟨0, 0, .stable⟩ nb = true) :=
  insd_infer_requires_quorum consensusDemoState 0 1 ⟨0, 0, .stable⟩
    ⟨0, 0, .collapse_inferred⟩ (by decide) (by norm_num [consensusDemoState])
    (by decide) consensusDemo_infers rfl

/-- C4: applying a delta map (whose deltas, as the engine produces them, are
nonnegative) never decreases any building's `earthquakeDamage` accumulator. -/
theorem applyEarthquakeDamage_monotone (s : SeismosState) (dmg : ℕ → Option ℚ)
    (hpos : ∀ id v, dmg id = some v → 0 ≤ v) (id : ℕ) (d d' : BuildingDamage)
    (hd : s.buildingDamages id = some d)
    (hd' : (applyEarthquakeDamage dmg s).buildingDamages id = some d') :
    d.earthquakeDamage ≤ d'.earthquakeDamage := by
  rcases applyDamage_pointwise dmg s id with ⟨h1, _⟩ | ⟨add, cur, hdm, hdc, h1, _⟩
  · rw [h1, hd] at hd'
    obtain rfl := Option.some.inj hd'
    exact le_refl _
  · rw [hd] at hdc
    obtain rfl := Option.some.inj hdc
    rw [h1] at hd'
    obtain rfl := (Option.some.inj hd').symm
    have hadd := hpos id add hdm
    show d.earthquakeDamage ≤ d.earthquakeDamage + add
    linarith

/-- C4 witness: node 1's accumulator goes from 0 to 70 under `dmgWit`. -/
theorem applyEarthquakeDamage_monotone_witness :
    dWitA.earthquakeDamage ≤ dWitB.earthquakeDamage :=
  applyEarthquakeDamage_monotone storeWitA dmgWit dmgWit_nonneg
    1 dWitA dWitB storeWitA_damages storeWitB_damages

/-- C6: a `collapse_inferred` node with a damage record whose heartbeat age
is back within the silence threshold has, after the next consensus pass, its
status recomputed purely from its current total score and its evidence entry
deleted. -/
theorem consensus_heartbeat_resume_restores (s : SeismosState) (now : ℤ)
    (id : ℕ) (n : NodeData) (d : BuildingDamage)
    (hn : s.nodes id = some n) (hstat : n.status = NodeStatus.collapse_inferred)
    (hd : s.buildingDamages id = some d)
    (hlive : ¬ silenceThreshold < now - (s.lastHeartbeat id).getD 0) :
    (checkConsensus now s).nodes id
      = some ⟨n.lat, n.lng, getStatusFromScore d.totalScore⟩ ∧
    (checkConsensus now s).consensusEvidence id = none := by
  have hA : ¬ (silenceThreshold < now - (s.lastHeartbeat id).getD 0 ∧
      n.status ≠ NodeStatus.collapse ∧ n.status ≠ NodeStatus.collapse_inferred) := by
    intro hc
    exact hlive hc.1
  have hB : (¬ silenceThreshold < now - (s.lastHeartbeat id).getD 0) ∧
      n.status = NodeStatus.collapse_inferred := ⟨hlive, hstat⟩
  have hupd : consensusNodeUpdate s now id n
      = ({ n with status := getStatusFromScore d.totalScore }, some none) := by
    simp only [consensusNodeUpdate]
    rw [if_neg hA, if_pos hB, hd]
  constructor
  · rw [checkConsensus]
    simp only [hn, Option.map_some', hupd]
  · rw [checkConsensus]
    simp only [hn, hupd]

/-- C6 witness: node 1, inferred collapsed with total score 20, resumes its
heartbeat and is restored to the score-derived status with its evidence
entry deleted. -/
theorem consensus_heartbeat_resume_restores_witness :
    (checkConsensus 0 resumeDemoState).nodes 1
      = some ⟨0, 0, getStatusFromScore (20 : ℚ)⟩ ∧
    (checkConsensus 0 resumeDemoState).consensusEvidence 1 = none :=
  consensus_heartbeat_resume_restores resumeDemoState 0 1
    ⟨0, 0, .collapse_inferred⟩ ⟨20, 0, 20⟩ (by decide) rfl (by decide) (by decide)

end Seismos
